import Mathlib

/-
  Verification of the moosetools test-harness core against its design
  specification.  Python sources are shallowly embedded: each Python function
  that a property refers to is translated into an executable Lean definition;
  filesystem and interpreter state are passed explicitly.  Definitions whose
  names match the Python (`TestCase.execute`, `Runner.filenames`, ...) are
  translations of the source; definitions prefixed with `spec` restate
  sentences of the design document for comparison.
-/

namespace Moosetools

/-- Python runtime errors that the embedded code can raise. -/
inductive PyErr where
  | typeError
  | attributeError
  | nameError
deriving DecidableEq, Repr

/- ===================================================================
   testharness/base/TestCase.py
   =================================================================== -/

/-- `TestCase.Result` states (SKIP/PASS/ERROR/EXCEPTION/FATAL), from the
`State` enum in TestCase.py. -/
inductive TCResult where
  | SKIP
  | PASS
  | ERROR
  | EXCEPTION
  | FATAL
deriving DecidableEq, Repr

/-- The `exitcode` attribute of each `TestCase.Result` member:
SKIP=(11,0), PASS=(12,0), ERROR=(13,1), EXCEPTION=(14,1), FATAL=(15,1). -/
def TCResult.exitcode : TCResult → Nat
  | .SKIP => 0
  | .PASS => 0
  | .ERROR => 1
  | .EXCEPTION => 1
  | .FATAL => 1

/-- `TestCase.execute` (TestCase.py lines 147-165), abstracted over the
outcomes of `executeObject`: `runner` is the runner's name paired with the
`Result` its stage produced, `differs` the same for each differ in declared
order.  Returns the final state plus the `results` entries in insertion
order, exactly mirroring the Python control flow: return early on runner
SKIP or nonzero exitcode; otherwise run every differ, updating `state` for
each non-SKIP differ result with nonzero exitcode. -/
def TestCase.execute (runner : String × TCResult)
    (differs : List (String × TCResult)) :
    TCResult × List (String × TCResult) :=
  let results := [(runner.1, runner.2)]
  if runner.2 = TCResult.SKIP ∨ 0 < runner.2.exitcode then
    (runner.2, results)
  else
    differs.foldl
      (fun acc d =>
        let res := acc.2 ++ [d]
        if d.2 ≠ TCResult.SKIP ∧ 0 < d.2.exitcode then (d.2, res)
        else (acc.1, res))
      (runner.2, results)

/-- Severity order stated by the spec: PASS < SKIP < ERROR ≈ EXCEPTION < FATAL. -/
def specSeverity : TCResult → Nat
  | .PASS => 0
  | .SKIP => 1
  | .ERROR => 2
  | .EXCEPTION => 2
  | .FATAL => 3

/-- Amended aggregation rule: the final result is the last differ result that
is non-SKIP with exit-code bit 1, defaulting to the runner's result. -/
def specLastFailing (runner : TCResult) (dres : List TCResult) : TCResult :=
  ((dres.filter (fun d => decide (d ≠ TCResult.SKIP ∧ 0 < d.exitcode))).getLast?).getD runner

/- ===================================================================
   moosetest/schedulers/QueueManager.py : createQueueScript, reserveSlots
   =================================================================== -/

/-- Python `in` on strings: substring containment, on character lists. -/
def isSubstr (pat s : List Char) : Bool :=
  decide (pat <:+: s)

/-- Python `str.replace(pat, rep)`: left-to-right, non-overlapping
replacement of every occurrence of `pat` (nonempty in all uses here). -/
def replaceAll (pat rep : List Char) (s : List Char) : List Char :=
  match s with
  | [] => []
  | c :: cs =>
    if h : pat ≠ [] ∧ pat.isPrefixOf (c :: cs) then
      rep ++ replaceAll pat rep ((c :: cs).drop pat.length)
    else
      c :: replaceAll pat rep cs
termination_by s.length
decreasing_by
  · simp only [List.length_drop, List.length_cons]
    have hp : 0 < pat.length := by
      cases pat with
      | nil => simp at h
      | cons a t => simp
    omega
  · simp

/-- First replacement loop of `QueueManager.createQueueScript`: for each
template key (in order), if the upper-cased key occurs anywhere in the
content, replace every `<KEY>` occurrence with the value's string form. -/
def qmSubstituteLoop (tpl : List (List Char × List Char)) (content : List Char) :
    List Char :=
  tpl.foldl
    (fun c kv =>
      let ku := kv.1.map Char.toUpper
      if isSubstr ku c then replaceAll ('<' :: (ku ++ ['>'])) kv.2 c else c)
    content

/-- Second loop of `QueueManager.createQueueScript` ("Strip out parameters
that were not supplied"): for each template key, if the upper-cased key does
not occur in the content, replace `<KEY>` with the empty string. -/
def qmStripLoop (tpl : List (List Char × List Char)) (content : List Char) :
    List Char :=
  tpl.foldl
    (fun c kv =>
      let ku := kv.1.map Char.toUpper
      if ¬ isSubstr ku c then replaceAll ('<' :: (ku ++ ['>'])) [] c else c)
    content

/-- `QueueManager.createQueueScript` content transformation (lines 82-90):
the substitution loop followed by the strip loop. -/
def createQueueScriptContent (tpl : List (List Char × List Char))
    (content : List Char) : List Char :=
  qmStripLoop tpl (qmSubstituteLoop tpl content)

/-- Scheduler lock argument of `reserveSlots`; its value is never inspected. -/
structure JLock where
  held : Bool

/-- Job record used by the QueueManager embedding (name, finished flag,
tester state, recovered timing and output). -/
structure TesterState where
  status : String
  color : String
  caveats : List String
  silent : Bool
deriving DecidableEq, Repr

structure JobRec where
  name : String
  finished : Bool
  tester : TesterState
  previousTime : Option Int
  output : Option String
deriving DecidableEq, Repr

/-- `QueueManager.reserveSlots` (QueueManager.py lines 97-102): returns True
unconditionally. -/
def QueueManager.reserveSlots (_job : JobRec) (_jlock : JLock) : Bool :=
  true

/- ===================================================================
   moosetest/base/Runner.py : expected-file handling
   =================================================================== -/

/-- The 'file' sub-parameter group of a `Runner` or `Differ`
(`base`, `names`, `check_created`, `clean`), from `Runner.validParams`. -/
structure FileParams where
  base : Option String
  names : List String
  check_created : Option Bool
  clean : Bool
deriving DecidableEq, Repr

/-- A `Runner` as far as expected-file handling is concerned: its own 'file'
group plus the 'file' groups of its differs (the 'differs' parameter). -/
structure RunnerFiles where
  file : FileParams
  differs : List FileParams
deriving DecidableEq, Repr

/-- POSIX `os.path.isabs`: the path starts with a separator. -/
def isAbs (s : String) : Bool :=
  match s.data with
  | [] => false
  | c :: _ => c = '/'

/-- POSIX `os.path.join(base, f)` for the shapes used here: an absolute
second argument wins; otherwise the two are joined with a separator
(bases in this model carry no trailing slash). -/
def pjoin (base f : String) : String :=
  if isAbs f then f else base ++ "/" ++ f

/-- A Python value that is either a `set` or a `list` of strings.
`Runner.filenames` returns a set when 'base' is unset and a list otherwise;
`_getExpectedFiles` combines them with `+=`, which raises `TypeError` on a
set.  Set iteration order is unspecified in Python; the model keeps first
occurrences in order, and no property proved here depends on the order. -/
inductive PyColl where
  | pset (l : List String)
  | plist (l : List String)
deriving DecidableEq, Repr

def PyColl.elems : PyColl → List String
  | .pset l => l
  | .plist l => l

/-- Membership-preserving model of Python `set(...)` construction. -/
def pySet (l : List String) : List String :=
  l.eraseDups

/-- `Runner.filenames(obj)` (Runner.py lines 232-249): the set of the 'names'
parameter; when 'base' is set, a list with relative entries resolved
against it. -/
def Runner.filenames (p : FileParams) : PyColl :=
  let filenames := pySet p.names
  match p.base with
  | none => PyColl.pset filenames
  | some b =>
    PyColl.plist (filenames.map (fun fname => pjoin b fname))

/-- Python `coll += other` for the two collection shapes above. -/
def collIAdd (a b : PyColl) : Except PyErr PyColl :=
  match a with
  | .pset _ => Except.error PyErr.typeError
  | .plist l => Except.ok (PyColl.plist (l ++ b.elems))

/-- `Runner._getExpectedFiles` (Runner.py lines 223-230): start from
`Runner.filenames(self)` and `+=` each differ's `Runner.filenames`. -/
def Runner.getExpectedFiles (r : RunnerFiles) : Except PyErr (List String) := do
  let expected ← r.differs.foldlM
    (fun acc d => collIAdd acc (Runner.filenames d))
    (Runner.filenames r.file)
  return expected.elems

/-- Filesystem state: the set of existing regular files (`os.path.isfile`),
the listing returned by a bare `os.listdir()` call (current working
directory), and `os.listdir(dir)` for explicit directories. -/
structure FSys where
  files : List String
  cwdListing : List String
  dirListing : String → List String

/-- Error conditions `_preExecuteExpectedFiles` can log (message tags of the
four `self.error(...)` calls, in source order). -/
inductive RunnerErr where
  | nonAbsolutePaths
  | trackedByGit
  | alreadyExist
  | checkCreatedWithoutBase
deriving DecidableEq, Repr

/-- Result of `_preExecuteExpectedFiles`: the first error logged (the method
returns immediately after logging), the regular files remaining after any
cleaning, the `__pre_execute_files` snapshot, and `__expected_files`. -/
structure PreResult where
  errorLog : Option RunnerErr
  files : List String
  preExecFiles : Option (List String)
  expected : List String
deriving DecidableEq, Repr

/-- `Runner._preExecuteExpectedFiles` (Runner.py lines 154-202).  `gitRoot`
models `mooseutils.git_root_dir()` and `gitLs dir` models
`mooseutils.git_ls_files(dir)`.  Removal of each expected regular file when
'clean' is set is modelled by filtering the expected names out of `files`;
the snapshot joins 'base' onto the entries of a bare `os.listdir()` exactly
as the source does. -/
def Runner.preExecuteExpectedFiles (r : RunnerFiles) (fs : FSys)
    (gitRoot : Option String) (gitLs : String → List String) :
    Except PyErr PreResult :=
  match Runner.getExpectedFiles r with
  | .error e => .error e
  | .ok expected =>
    let nonAbs := expected.filter (fun fname => ¬ isAbs fname)
    if nonAbs ≠ [] then
      .ok ⟨some RunnerErr.nonAbsolutePaths, fs.files, none, expected⟩
    else
      let intersect :=
        match gitRoot with
        | none => []
        | some rootDir =>
          (pySet (gitLs (r.file.base.getD rootDir))).filter
            (fun fname => fname ∈ expected)
      if intersect ≠ [] then
        .ok ⟨some RunnerErr.trackedByGit, fs.files, none, expected⟩
      else
        let files1 :=
          if r.file.clean then fs.files.filter (fun fname => ¬ fname ∈ expected)
          else fs.files
        let exist := expected.filter (fun fname => fname ∈ files1)
        if exist ≠ [] then
          .ok ⟨some RunnerErr.alreadyExist, files1, none, expected⟩
        else
          match r.file.check_created, r.file.base with
          | some true, none =>
            .ok ⟨some RunnerErr.checkCreatedWithoutBase, files1, none, expected⟩
          | some true, some baseDir =>
            .ok ⟨none, files1, some (fs.cwdListing.map (pjoin baseDir)), expected⟩
          | none, some baseDir =>
            .ok ⟨none, files1, some (fs.cwdListing.map (pjoin baseDir)), expected⟩
          | _, _ =>
            .ok ⟨none, files1, none, expected⟩

/-- Result of `_postExecuteExpectedFiles`: the expected files reported as
missing (first error message) and, when the snapshot exists and the check
fires, the files reported as created-but-not-expected. -/
structure PostResult where
  notCreated : List String
  createdUnexpected : Option (List String)
deriving DecidableEq, Repr

/-- Python set equality of two string lists. -/
def listSetEq (a b : List String) : Bool :=
  a.all (fun x => x ∈ b) && b.all (fun x => x ∈ a)

/-- `Runner._postExecuteExpectedFiles` (Runner.py lines 204-221), evaluated
against the post-execution filesystem `fs`.  The post listing calls
`os.listdir` on the 'base' parameter (bare names); a `None` base would make
Python list the working directory, which the model mirrors. -/
def Runner.postExecuteExpectedFiles (r : RunnerFiles) (pre : PreResult)
    (fs : FSys) : PostResult :=
  let doNotExist := pre.expected.filter (fun fname => ¬ fname ∈ fs.files)
  let created :=
    match pre.preExecFiles with
    | none => none
    | some preFiles =>
      let postFiles :=
        match r.file.base with
        | some b => pySet (fs.dirListing b)
        | none => pySet fs.cwdListing
      let diff := postFiles.filter (fun fname => ¬ fname ∈ preFiles)
      if diff ≠ [] ∧ ¬ listSetEq pre.expected diff then
        some (diff.filter (fun fname => ¬ fname ∈ pre.expected))
      else
        none
  ⟨doNotExist, created⟩

/- ===================================================================
   factory/Parser.py : tree model, checkDuplicates, parse
   =================================================================== -/

/-- A raw value carried by a configuration node or stored in a parameter
container: the Python shapes that flow through `Parser.extractParams`
(strings, ints, bools from the hit reader; lists and parsed dates appear
only as assigned results). -/
inductive PyVal where
  | vstr (s : List Char)
  | vint (n : Int)
  | vbool (b : Bool)
  | vlist (l : List (List Char))
  | vdate (d : Nat)
deriving DecidableEq, Repr

/-- `str(value)` for the raw scalar shapes. -/
def PyVal.pyStr : PyVal → List Char
  | .vstr s => s
  | .vint n => (toString n).data
  | .vbool b => if b then "True".data else "False".data
  | .vlist _ => []
  | .vdate _ => []

/-- Runtime type tag, for `type(value)` comparisons. -/
inductive VTag where
  | tstr
  | tint
  | tbool
  | tlist
  | tdate
deriving DecidableEq, Repr

def PyVal.tag : PyVal → VTag
  | .vstr _ => VTag.tstr
  | .vint _ => VTag.tint
  | .vbool _ => VTag.tbool
  | .vlist _ => VTag.tlist
  | .vdate _ => VTag.tdate

/-- A node of the hit configuration tree (modelled from the spec: pyhit and
moosetree are part of the repository but outside the provided sources).
Each node has a name, an ordered parameter list and child blocks; the full
path joins ancestor names with a separator. -/
inductive HitNode where
  | mk (name : String) (params : List (String × PyVal)) (children : List HitNode)

def HitNode.nameOf : HitNode → String
  | .mk n _ _ => n

def HitNode.paramsOf : HitNode → List (String × PyVal)
  | .mk _ p _ => p

def HitNode.childrenOf : HitNode → List HitNode
  | .mk _ _ c => c

/-- `os.path.join` of a parent full path and a name, with the file root
named by the empty string (so the first real level is its own path). -/
def joinPath (parent name : String) : String :=
  if parent = "" then name else parent ++ "/" ++ name

/-- Diagnostics yielded by `Parser.checkDuplicates`. -/
inductive DupDiag where
  | dupSection (path : String)
  | dupParam (path : String)
deriving DecidableEq, Repr

mutual

/-- Pre-order worker for `Parser.checkDuplicates` (Parser.py lines 34-50):
one shared `paths` set records every block full path and every parameter
full path; a path already recorded yields a diagnostic (and is not
re-recorded, so a path occurring k times yields k-1 diagnostics).  The
child sweep is the mutually recursive `checkDuplicatesList`. -/
def checkDuplicatesGo (parent : String) (acc : List String × List DupDiag)
    (node : HitNode) : List String × List DupDiag :=
  match node with
  | .mk name params children =>
    let fp := joinPath parent name
    let acc1 :=
      if fp ∈ acc.1 then (acc.1, acc.2 ++ [DupDiag.dupSection fp])
      else (acc.1 ++ [fp], acc.2)
    let acc2 := params.foldl
      (fun a kv =>
        let fullparam := joinPath fp kv.1
        if fullparam ∈ a.1 then (a.1, a.2 ++ [DupDiag.dupParam fullparam])
        else (a.1 ++ [fullparam], a.2))
      acc1
    checkDuplicatesList fp acc2 children

def checkDuplicatesList (parent : String)
    (acc : List String × List DupDiag) : List HitNode →
    List String × List DupDiag
  | [] => acc
  | c :: cs => checkDuplicatesList parent (checkDuplicatesGo parent acc c) cs

end

/-- `Parser.checkDuplicates(root)`: the diagnostics of the pre-order sweep. -/
def checkDuplicates (root : HitNode) : List DupDiag :=
  (checkDuplicatesGo "" ([], []) root).2

/-- Abstract factory, as `Parser._parseNode` consumes it: whether
`factory.params(otype)` yields a template, whether a key is a parameter of
that template, and whether `factory.create(otype, params)` succeeds. -/
structure FactoryModel where
  hasType : String → Bool
  knownParam : String → String → Bool
  createOk : String → Bool

/-- Diagnostics emitted on the live `Parser.parse` path (the four
`self.error(...)` calls of `_parseNode`).  There is no duplicate-related
constructor: `parse` never reports duplicates. -/
inductive ParseDiag where
  | missingType (path : String)
  | failedParams (path : String)
  | unknownParam (key : String)
  | createFailed (path : String)
deriving DecidableEq, Repr

/-- Python `dict.get`-style first lookup of a key in a node parameter list
(`node.get('type', None)`). -/
def lookupParam (key : String) : List (String × PyVal) → Option PyVal
  | [] => none
  | kv :: rest => if kv.1 = key then some kv.2 else lookupParam key rest

/-- `Parser._parseNode` (Parser.py lines 153-184) for one leaf node at full
path `fp`: report a missing 'type'; report a failed parameter template;
otherwise walk the node's parameters (skipping 'type'), reporting each key
the template does not contain — note the source still calls
`params.set(key, value)` after reporting — and finally construct, appending
the node name to the warehouse on success. -/
def parseNode (fac : FactoryModel) (fp : String) (node : HitNode) :
    List ParseDiag × List String :=
  match lookupParam "type" node.paramsOf with
  | none => ([ParseDiag.missingType fp], [])
  | some tv =>
    let otype := String.mk tv.pyStr
    if ¬ fac.hasType otype then ([ParseDiag.failedParams fp], [])
    else
      let diags := node.paramsOf.foldl
        (fun acc kv =>
          if kv.1 = "type" then acc
          else if ¬ fac.knownParam otype kv.1 then
            acc ++ [ParseDiag.unknownParam kv.1]
          else acc)
        []
      if fac.createOk otype then (diags, [node.nameOf])
      else (diags ++ [ParseDiag.createFailed fp], [])

/-- The sequence of `params.set(key, value)` calls the parameter loop of
`Parser._parseNode` (Parser.py lines 169-176) makes for a node: every
parameter other than 'type' is passed to `set` with its raw value — the
does-not-exist error does not skip the call, and no quote stripping or
coercion is applied before it. -/
def parseNodeSetCalls (node : HitNode) : List (String × PyVal) :=
  node.paramsOf.foldl
    (fun acc kv => if kv.1 = "type" then acc else acc ++ [kv])
    []

mutual

/-- Pre-order collection of the leaf blocks (`moosetree.findall` with
`len(n) == 0`), paired with their full paths; the child sweep is the
mutually recursive `collectLeavesList`. -/
def collectLeaves (parent : String) (node : HitNode) :
    List (String × HitNode) :=
  match node with
  | .mk name params children =>
    let fp := joinPath parent name
    if children.isEmpty then [(fp, HitNode.mk name params children)]
    else collectLeavesList fp children

def collectLeavesList (parent : String) : List HitNode →
    List (String × HitNode)
  | [] => []
  | c :: cs => collectLeaves parent c ++ collectLeavesList parent cs

end

/-- `Parser.parse` (Parser.py lines 71-91) after a successful load of
`fileRoot`: take the first top-level block as the iteration root (`root(0)`,
the `[Tests]` block), visit every leaf under it in pre-order, and run
`_parseNode` on each.  Returns all diagnostics and the warehouse contents.
The commented-out duplicate check is faithfully absent. -/
def Parser.parse (fac : FactoryModel) (fileRoot : HitNode) :
    List ParseDiag × List String :=
  match fileRoot.childrenOf with
  | [] => ([], [])
  | testsRoot :: _ =>
    let base := joinPath "" fileRoot.nameOf
    (collectLeaves base testsRoot).foldl
      (fun acc leaf =>
        let r := parseNode fac leaf.1 leaf.2
        (acc.1 ++ r.1, acc.2 ++ r.2))
      ([], [])

/- ===================================================================
   factory/Parser.py : extractParams
   =================================================================== -/

/-- Strict type entries of `params.strict_types`: `time.struct_time` or a
plain runtime type. -/
inductive SType where
  | structTime
  | other (t : VTag)
deriving DecidableEq, Repr

/-- The parameter container handed to `extractParams`: which keys exist,
which are list-typed (`params.type(key) == list`), the strict-type table,
the required keys, and the current assignments. -/
structure ParamsModel where
  keys : List String
  isListType : String → Bool
  strict : String → Option SType
  requiredKeys : List String
  values : String → Option PyVal

/-- Diagnostics `extractParams` can log. -/
inductive ExtractDiag where
  | unusedParameter (key : String)
  | requiredMissing (keys : List String)
deriving DecidableEq, Repr

/-- Mutable state threaded through `extractParams`: the parameter container,
`local_parsed`, the parser-level `self.params_parsed`, the logged
diagnostics and the `have_err` flag.  `paramsParsed` is `none` when the
`params_parsed` attribute does not exist on the `Parser` object — which is
the state `Parser.__init__` produces, since the initialization
`self.params_parsed = set()` (Parser.py line 57) is commented out and
nothing else assigns it — and `some l` when the attribute holds the set of
already-recorded parameter paths. -/
structure ExtractState where
  params : ParamsModel
  localParsed : List String
  paramsParsed : Option (List String)
  diags : List ExtractDiag
  haveErr : Bool

/-- The `params_parsed` attribute of a freshly constructed `Parser`: the
constructor leaves it undefined (Parser.py line 57 is commented out), so
any attribute access raises `AttributeError`. -/
def Parser.initParamsParsed : Option (List String) :=
  none

/-- `params[key] = v`. -/
def ExtractState.assign (st : ExtractState) (key : String) (v : PyVal) :
    ExtractState :=
  { st with
    params :=
      { st.params with
        values := fun k => if k = key then some v else st.params.values k } }

/-- Scanner for `re.match` with pattern `".*"` after the opening quote: is
there another double quote before any newline (`.` does not match a
newline)? -/
def quoteBeforeNewline : List Char → Bool
  | [] => false
  | c :: rest =>
    if c = '"' then true
    else if c = '\n' then false
    else quoteBeforeNewline rest

/-- `re.match('".*"', value)` succeeds: the value starts with a double quote
and a second double quote occurs with no newline in between. -/
def reMatchQuoted (s : List Char) : Bool :=
  match s with
  | '"' :: rest => quoteBeforeNewline rest
  | _ => false

/-- `\s` whitespace class of `re`. -/
def isWS (c : Char) : Bool :=
  c = ' ' ∨ c = '\t' ∨ c = '\n' ∨ c = '\r' ∨ c = '\x0b' ∨ c = '\x0c'

mutual

/-- Accumulating worker for `re.split('\s+', s)`: split at each maximal
whitespace run, producing empty pieces at the boundaries exactly as Python
does; `splitWSSkip` consumes the remainder of a whitespace run. -/
def splitWSGo (cur : List Char) : List Char → List (List Char)
  | [] => [cur]
  | c :: rest =>
    if isWS c then cur :: splitWSSkip rest
    else splitWSGo (cur ++ [c]) rest

def splitWSSkip : List Char → List (List Char)
  | [] => [[]]
  | c :: rest =>
    if isWS c then splitWSSkip rest
    else splitWSGo [c] rest

end

/-- `re.split('\s+', s)`. -/
def splitWS (s : List Char) : List (List Char) :=
  splitWSGo [] s

/-- `value.replace('\n', ' ')`. -/
def replaceNewlines (s : List Char) : List Char :=
  s.map (fun c => if c = '\n' then ' ' else c)

/-- Body of the `for key, value in getpot_node.params()` loop of
`Parser.extractParams` (Parser.py lines 111-143), for one `(key, value)`
pair.  Its first statement, `self.params_parsed.add(...)` (line 112),
raises `AttributeError` whenever the `params_parsed` attribute does not
exist — the state every real `Parser` is in, because the initialization is
commented out (line 57) — so on such an object the loop body never reaches
the membership test.  `strptime s` models `time.strptime(s, "%m/%d/%Y")`
(`none` for a `ValueError`).  The two strict-type error branches
interpolate the undefined name `child` into their messages, so reaching
them raises `NameError`; calling `strptime` on a non-string raises
`TypeError` (uncaught, since only `ValueError` is handled). -/
def processParam (strptime : List Char → Option Nat) (fullpath : String)
    (st : ExtractState) (kv : String × PyVal) : Except PyErr ExtractState :=
  let key := kv.1
  let value := kv.2
  match st.paramsParsed with
  | none => Except.error PyErr.attributeError
  | some pp =>
  let st :=
    { st with
      paramsParsed := some (pp ++ [joinPath fullpath key]),
      localParsed := st.localParsed ++ [key] }
  if key ∈ st.params.keys then
    if st.params.isListType key then
      match value with
      | .vstr s =>
        Except.ok (st.assign key (PyVal.vlist (splitWS (replaceNewlines s))))
      | v => Except.ok (st.assign key (PyVal.vlist [v.pyStr]))
    else
      match value with
      | .vstr s =>
        if reMatchQuoted s then
          Except.ok (st.assign key (PyVal.vstr ((s.drop 1).dropLast)))
        else
          match st.params.strict key with
          | some SType.structTime =>
            match strptime s with
            | some d => Except.ok (st.assign key (PyVal.vdate d))
            | none => Except.error PyErr.nameError
          | some (SType.other t) =>
            if t ≠ VTag.tstr then Except.error PyErr.nameError
            else Except.ok st
          | none => Except.ok (st.assign key (PyVal.vstr s))
      | v =>
        match st.params.strict key with
        | some SType.structTime => Except.error PyErr.typeError
        | some (SType.other t) =>
          if t ≠ v.tag then Except.error PyErr.nameError
          else Except.ok st
        | none => Except.ok (st.assign key v)
  else
    Except.ok
      { st with diags := st.diags ++ [ExtractDiag.unusedParameter key] }

/-- `Parser.extractParams` (Parser.py lines 104-151): run the loop body over
every node parameter, then report missing required keys and store
`params['have_errors']`.  `paramsParsed` is the `params_parsed` attribute
state of the `Parser` object the method is called on; on a real instance
this is `Parser.initParamsParsed` (undefined), so the call raises
`AttributeError` at its first parameter.  Note also that nothing in the
live code calls this method: `parse` → `_parseNode` performs its
assignments through `params.set` directly. -/
def extractParams (strptime : List Char → Option Nat) (fullpath : String)
    (ps : ParamsModel) (nodeParams : List (String × PyVal))
    (paramsParsed : Option (List String)) : Except PyErr ExtractState := do
  let st0 : ExtractState := ⟨ps, [], paramsParsed, [], false⟩
  let st ← nodeParams.foldlM (processParam strptime fullpath) st0
  let missing := st.params.requiredKeys.filter
    (fun k => ¬ k ∈ st.localParsed)
  let st :=
    if missing ≠ [] then
      { st with
        diags := st.diags ++ [ExtractDiag.requiredMissing missing],
        haveErr := true }
    else st
  return st.assign "have_errors" (PyVal.vbool st.haveErr)

/- ===================================================================
   testharness/base/TestCase.py : RedirectOutput
   =================================================================== -/

/-- State of an active `RedirectOutput` scope: the per-thread `_stdout` and
`_stderr` buffers (a `defaultdict(io.StringIO)`, so unknown threads read as
empty), plus the saved original streams that main-thread writes go to.
Threads are keyed by their identity. -/
structure RedirectState where
  outBuf : Nat → String
  errBuf : Nat → String
  sysout : String
  syserr : String

/-- A freshly entered scope: all buffers empty. -/
def RedirectState.empty : RedirectState :=
  ⟨fun _ => "", fun _ => "", "", ""⟩

/-- `SysRedirect.write` for the stdout shim (TestCase.py lines 38-42): the
main thread writes through to the original stream, any other thread appends
to its own buffer keyed on `threading.current_thread().ident`. -/
def SysRedirect.writeStdout (s : RedirectState) (mainId tid : Nat)
    (message : String) : RedirectState :=
  if tid = mainId then { s with sysout := s.sysout ++ message }
  else
    { s with
      outBuf := fun t => if t = tid then s.outBuf t ++ message else s.outBuf t }

/-- `SysRedirect.write` for the stderr shim, dispatching into `_stderr`. -/
def SysRedirect.writeStderr (s : RedirectState) (mainId tid : Nat)
    (message : String) : RedirectState :=
  if tid = mainId then { s with syserr := s.syserr ++ message }
  else
    { s with
      errBuf := fun t => if t = tid then s.errBuf t ++ message else s.errBuf t }

/-- The `RedirectOutput.stdout` property (TestCase.py lines 56-58): the
calling thread's captured stdout text. -/
def RedirectOutput.stdoutProp (s : RedirectState) (tid : Nat) : String :=
  s.outBuf tid

/-- The `RedirectOutput.stderr` property (TestCase.py lines 60-62): the
source reads `self._stdrr`, an attribute that is never assigned (the
constructor sets `_stdout`, `_stderr`, `_sys_stdout`, `_sys_stderr`), so
every call raises `AttributeError`. -/
def RedirectOutput.stderrProp (_s : RedirectState) (_tid : Nat) :
    Except PyErr String :=
  Except.error PyErr.attributeError

/- ===================================================================
   moosetest/schedulers/QueueManager.py : _setJobStatus
   =================================================================== -/

/-- One per-test entry of the persisted results JSON (`STATUS`, `COLOR`,
`TIMING`, `CAVEATS`, `OUTPUT`). -/
structure ResultEntry where
  status : String
  color : String
  timing : Int
  caveats : List String
  output : String
deriving DecidableEq, Repr

/-- Python `s.encode('ascii', 'ignore')`: drop the non-ASCII characters. -/
def asciiIgnore (s : String) : String :=
  String.mk (s.data.filter (fun c => c.toNat < 128))

/-- `QueueManager._setJobStatus` (QueueManager.py lines 283-334), per-job
loop over the group.  `results name` models
`group_results.get(job.getTestName(), {})` with Python truthiness: a
missing or empty entry is `none`.  Every job is first marked finished;
silenced testers are then skipped; a present entry sets the tester status
from `STATUS`/`COLOR` (ASCII-filtered), records `TIMING` as the previous
time, adds the space-joined `CAVEATS` as a single caveat when nonempty and
stores `OUTPUT`; an absent entry adds the caveat 'not originally launched'
and sets the skip status. -/
def QueueManager.setJobStatus (results : String → Option ResultEntry)
    (jobs : List JobRec) : List JobRec :=
  jobs.map (fun job =>
    let job := { job with finished := true }
    if job.tester.silent then job
    else
      match results job.name with
      | some e =>
        { job with
          tester :=
            { job.tester with
              status := asciiIgnore e.status,
              color := asciiIgnore e.color,
              caveats :=
                job.tester.caveats ++
                  (if e.caveats.isEmpty then []
                   else [String.intercalate " " e.caveats]) },
          previousTime := some e.timing,
          output := some e.output }
      | none =>
        { job with
          tester :=
            { job.tester with
              caveats := job.tester.caveats ++ ["not originally launched"],
              status := "SKIP" } })

/-- Reap behaviour per job as the amended claim states it: every job ends
finished; a silenced job is otherwise untouched; a non-silenced job with an
entry in the results file takes its status and color from the file
(ASCII-filtered), its timing and output verbatim, and one space-joined
caveat when the file lists caveats; a non-silenced job without an entry is
marked SKIP with the caveat 'not originally launched'. -/
def specReapJob (results : String → Option ResultEntry) (job : JobRec) :
    JobRec :=
  match job.tester.silent, results job.name with
  | true, _ =>
    ⟨job.name, true, job.tester, job.previousTime, job.output⟩
  | false, some e =>
    ⟨job.name, true,
      ⟨asciiIgnore e.status, asciiIgnore e.color,
        job.tester.caveats ++
          (if e.caveats = [] then [] else [String.intercalate " " e.caveats]),
        false⟩,
      some e.timing, some e.output⟩
  | false, none =>
    ⟨job.name, true,
      ⟨"SKIP", job.tester.color,
        job.tester.caveats ++ ["not originally launched"], false⟩,
      job.previousTime, job.output⟩

/- ===================================================================
   Helper lemmas
   =================================================================== -/

theorem getLastD_cons {α : Type} (a x : α) (l : List α) :
    ((a :: l).getLast?).getD x = (l.getLast?).getD a := by
  cases l with
  | nil => simp
  | cons b t =>
    rw [List.getLast?_cons_cons]
    have hne : (b :: t) ≠ [] := by simp
    obtain ⟨y, hy⟩ := Option.isSome_iff_exists.mp
      (List.getLast?_isSome.mpr hne)
    rw [hy]
    simp

theorem specLastFailing_cons (st x : TCResult) (rest : List TCResult) :
    specLastFailing st (x :: rest) =
      (if x ≠ TCResult.SKIP ∧ 0 < x.exitcode then specLastFailing x rest
       else specLastFailing st rest) := by
  by_cases hc : x ≠ TCResult.SKIP ∧ 0 < x.exitcode
  · rw [if_pos hc]
    unfold specLastFailing
    rw [List.filter_cons_of_pos]
    · exact getLastD_cons _ _ _
    · exact decide_eq_true hc
  · rw [if_neg hc]
    unfold specLastFailing
    rw [List.filter_cons_of_neg]
    simpa using hc

theorem execute_fold (ds : List (String × TCResult)) (st : TCResult)
    (res : List (String × TCResult)) :
    ds.foldl
      (fun acc d =>
        if d.2 ≠ TCResult.SKIP ∧ 0 < d.2.exitcode then (d.2, acc.2 ++ [d])
        else (acc.1, acc.2 ++ [d]))
      (st, res)
      = (specLastFailing st (ds.map Prod.snd), res ++ ds) := by
  induction ds generalizing st res with
  | nil => simp [specLastFailing]
  | cons d t ih =>
    simp only [List.foldl_cons, List.map_cons]
    rw [specLastFailing_cons]
    by_cases hc : d.2 ≠ TCResult.SKIP ∧ 0 < d.2.exitcode
    · rw [if_pos hc, if_pos hc, ih]
      simp
    · rw [if_neg hc, if_neg hc, ih]
      simp

theorem replaceAll_not_occur (pat rep s : List Char) (h : ¬ pat <:+: s) :
    replaceAll pat rep s = s := by
  induction s with
  | nil => rw [replaceAll]
  | cons c cs ih =>
    rw [replaceAll]
    have hpre : ¬ (pat ≠ [] ∧ pat.isPrefixOf (c :: cs)) := by
      rintro ⟨hne, hp⟩
      exact h (List.IsPrefix.isInfix (List.isPrefixOf_iff_prefix.mp hp))
    rw [dif_neg hpre]
    have htail : ¬ pat <:+: cs := by
      intro hinf
      obtain ⟨u, v, huv⟩ := hinf
      exact h ⟨c :: u, v, by simp [huv]⟩
    rw [ih htail]

theorem qmStripLoop_noop (tpl : List (List Char × List Char))
    (content : List Char) : qmStripLoop tpl content = content := by
  induction tpl generalizing content with
  | nil => rfl
  | cons kv rest ih =>
    unfold qmStripLoop
    simp only [List.foldl_cons]
    have hstep :
        (if ¬ isSubstr (kv.1.map Char.toUpper) content then
          replaceAll ('<' :: (kv.1.map Char.toUpper ++ ['>'])) [] content
        else content) = content := by
      by_cases hs : isSubstr (kv.1.map Char.toUpper) content
      · rw [if_neg (by simpa using hs)]
      · rw [if_pos hs]
        apply replaceAll_not_occur
        intro hinf
        apply hs
        unfold isSubstr
        apply decide_eq_true
        have hku : kv.1.map Char.toUpper <:+:
            '<' :: (kv.1.map Char.toUpper ++ ['>']) :=
          ⟨['<'], ['>'], by simp⟩
        exact hku.trans hinf
    rw [hstep]
    exact ih content

/- ===================================================================
   Claim theorems
   =================================================================== -/

/-- Claim C1 counterexample: with the Runner stage yielding PASS and the
Differ stages yielding FATAL then ERROR, `TestCase.execute` returns ERROR,
whose severity is strictly below the severity of the executed FATAL differ
result — the final Result is not the worst of (Runner, executed Differs). -/
theorem TestCase_execute_not_worst :
    (TestCase.execute ("r", TCResult.PASS)
        [("d1", TCResult.FATAL), ("d2", TCResult.ERROR)]).1 = TCResult.ERROR ∧
    ("d1", TCResult.FATAL) ∈
      (TestCase.execute ("r", TCResult.PASS)
        [("d1", TCResult.FATAL), ("d2", TCResult.ERROR)]).2 ∧
    specSeverity TCResult.ERROR < specSeverity TCResult.FATAL := by
  decide

/-- Claim C1 (amended): `TestCase.execute` returns the Runner's Result alone
when it is SKIP or has exit-code bit 1 (no Differ executed); otherwise every
Differ is executed in declared order and the final Result is the last
non-SKIP exit-bit-1 Differ result, defaulting to the Runner's Result. -/
theorem TestCase_execute_characterization (rname : String) (r : TCResult)
    (ds : List (String × TCResult)) :
    TestCase.execute (rname, r) ds =
      (if r = TCResult.SKIP ∨ 0 < r.exitcode then (r, [(rname, r)])
       else (specLastFailing r (ds.map Prod.snd), (rname, r) :: ds)) := by
  unfold TestCase.execute
  by_cases h : r = TCResult.SKIP ∨ 0 < r.exitcode
  · rw [if_pos h, if_pos h]
  · rw [if_neg h, if_neg h, execute_fold]
    simp

/-- Claim C10: `QueueManager.reserveSlots` returns True for every Job and
lock argument, so slot accounting never defers a Job in QueueManager mode. -/
theorem QueueManager_reserveSlots_true (job : JobRec) (jlock : JLock) :
    QueueManager.reserveSlots job jlock = true := by
  rfl

/-- Claim C10 witness: `reserveSlots` evaluated at a concrete Job. -/
theorem QueueManager_reserveSlots_true_witness :
    QueueManager.reserveSlots
      ⟨"j", false, ⟨"", "", [], false⟩, none, none⟩ ⟨true⟩ = true :=
  QueueManager_reserveSlots_true ⟨"j", false, ⟨"", "", [], false⟩, none, none⟩
    ⟨true⟩

/-- Claim C7: within a redirect scope, a write to stderr from non-main
thread 1 lands in thread 1's own `_stderr` buffer (and in no other buffer,
nor in the original stream), but the scope's `stderr` accessor raises
`AttributeError` (it reads the misspelled attribute `_stdrr`) instead of
returning the captured text. -/
theorem RedirectOutput_stderr_attribute_error :
    (SysRedirect.writeStderr RedirectState.empty 0 1 "x").errBuf 1 = "x" ∧
    (SysRedirect.writeStderr RedirectState.empty 0 1 "x").errBuf 2 = "" ∧
    (SysRedirect.writeStderr RedirectState.empty 0 1 "x").syserr = "" ∧
    RedirectOutput.stderrProp
        (SysRedirect.writeStderr RedirectState.empty 0 1 "x") 1 =
      Except.error PyErr.attributeError := by
  refine ⟨?_, ?_, ?_, ?_⟩ <;> rfl

/-- Claim C8 counterexample: a template placeholder whose key is not
supplied (`<B>` with template keys `a`) is left verbatim in the rendered
content, not replaced with the empty string. -/
theorem createQueueScript_placeholder_remains :
    createQueueScriptContent [(['a'], ['1'])] ['<', 'B', '>']
        = ['<', 'B', '>'] ∧
    (['<', 'B', '>'] : List Char) ≠ [] := by
  constructor
  · unfold createQueueScriptContent
    rw [qmStripLoop_noop]
    simp [qmSubstituteLoop, isSubstr, replaceAll]
  · simp

/-- Claim C8 (amended): rendering substitutes, in key order, every
`<KEY>` placeholder whose upper-cased key occurs in the content with the
value's string form; the second loop, meant to blank out unsupplied
placeholders, never changes the content, so placeholders of keys absent
from the template remain in the written script. -/
theorem createQueueScript_characterization
    (tpl : List (List Char × List Char)) (content : List Char) :
    createQueueScriptContent tpl content = qmSubstituteLoop tpl content := by
  unfold createQueueScriptContent
  exact qmStripLoop_noop tpl (qmSubstituteLoop tpl content)

/-- Claim C9 counterexample: a Job whose tester is silenced and that is
present in the results file (entry STATUS `FAIL`) keeps its previous tester
state — its Result is not set from the file's STATUS — although it is
marked finished. -/
theorem setJobStatus_silent_not_applied :
    QueueManager.setJobStatus
        (fun n => if n = "j" then
          some ⟨"FAIL", "red", 7, ["cv"], "out"⟩ else none)
        [⟨"j", false, ⟨"NA", "c", [], true⟩, none, none⟩]
      = [⟨"j", true, ⟨"NA", "c", [], true⟩, none, none⟩] ∧
    ("NA" : String) ≠ "FAIL" := by
  constructor
  · rfl
  · simp

/-- Claim C9 (amended): during the reap pass each Job of the group is
processed independently: every Job ends finished; silenced Jobs are
otherwise untouched; a non-silenced Job with a (nonempty) results entry
takes STATUS and COLOR from the file (ASCII-filtered), TIMING and OUTPUT
verbatim, and its CAVEATS space-joined into a single added caveat when
nonempty; a non-silenced Job without an entry is set to SKIP with the added
caveat 'not originally launched'. -/
theorem setJobStatus_characterization
    (results : String → Option ResultEntry) (jobs : List JobRec) :
    QueueManager.setJobStatus results jobs = jobs.map (specReapJob results) := by
  unfold QueueManager.setJobStatus specReapJob
  apply List.map_congr_left
  intro job _
  cases hsil : job.tester.silent with
  | true => simp [hsil]
  | false =>
    cases hres : results job.name with
    | none => simp [hsil, hres]
    | some e =>
      simp only [hsil, hres, if_false, Bool.false_eq_true]
      cases he : e.caveats with
      | nil => simp [he]
      | cons a t => simp [he]

/-- Supporting result for the intact part of the pre-execution contract:
whenever `_preExecuteExpectedFiles` completes without logging an error and
'clean' is set, no expected file remains on the filesystem it returns. -/
theorem preExecute_clean_removes_expected (r : RunnerFiles) (fs : FSys)
    (gitRoot : Option String) (gitLs : String → List String) (res : PreResult)
    (hok : Runner.preExecuteExpectedFiles r fs gitRoot gitLs = Except.ok res)
    (herr : res.errorLog = none) (hclean : r.file.clean = true) :
    ∀ fname ∈ res.expected, ¬ fname ∈ res.files := by
  unfold Runner.preExecuteExpectedFiles at hok
  cases hge : Runner.getExpectedFiles r with
  | error e => rw [hge] at hok; simp at hok
  | ok expected =>
    rw [hge] at hok
    simp only [hclean, if_true] at hok
    split at hok
    · cases hok; simp at herr
    · split at hok
      · cases hok; simp at herr
      · split at hok
        · cases hok; simp at herr
        · split at hok <;> cases hok
          · simp at herr
          all_goals
            intro fname hmem hfil
            rw [List.mem_filter] at hfil
            exact absurd hmem (by simpa using hfil.2)

/-- Supporting result: a write from one thread never lands in another
thread's buffers nor, for a non-main thread, in the original streams. -/
theorem redirect_write_isolated (s : RedirectState) (mainId tid t2 : Nat)
    (msg : String) (hne : t2 ≠ tid) :
    (SysRedirect.writeStdout s mainId tid msg).outBuf t2 = s.outBuf t2 ∧
    (SysRedirect.writeStderr s mainId tid msg).errBuf t2 = s.errBuf t2 := by
  unfold SysRedirect.writeStdout SysRedirect.writeStderr
  by_cases hm : tid = mainId
  · simp [hm]
  · simp [hm, hne]

/-- Supporting result: the `stdout` accessor returns exactly what the
calling (non-main) thread wrote through the stdout shim. -/
theorem redirect_stdout_returns_written (mainId tid : Nat) (msg : String)
    (hmain : tid ≠ mainId) :
    RedirectOutput.stdoutProp
        (SysRedirect.writeStdout RedirectState.empty mainId tid msg) tid
      = msg := by
  simp [RedirectOutput.stdoutProp, SysRedirect.writeStdout, hmain,
    RedirectState.empty]

/-- Claim C2: a Runner with 'base' unset and one Differ that declares a
(non-absolute) expected file name makes `_preExecuteExpectedFiles` raise
`TypeError` before any of the claimed checks run: `Runner.filenames` returns
a Python `set` when 'base' is unset and `_getExpectedFiles` then executes
`set += list`, which is unsupported.  The claimed rejection (an error log
for the non-absolute path) never happens. -/
theorem Runner_preExecute_typeError :
    Runner.preExecuteExpectedFiles
        ⟨⟨none, [], none, true⟩, [⟨none, ["rel"], none, true⟩]⟩
        ⟨[], [], fun _ => []⟩ none (fun _ => [])
      = Except.error PyErr.typeError := by
  rfl

/-- Claim C3: with 'base' = `/base` containing one pre-existing file `old`
(the filesystem passed to both phases is identical, so execution created
nothing), `_preExecuteExpectedFiles` snapshots the bare `os.listdir()`
entries joined onto 'base' (absolute paths) and `_postExecuteExpectedFiles`
then lists 'base' as bare names, so its set difference retains the
untouched pre-existing file and reports it as created-but-not-expected. -/
theorem Runner_postExecute_reports_preexisting :
    Runner.preExecuteExpectedFiles
        ⟨⟨some "/base", [], none, true⟩, []⟩
        ⟨[], ["old"], fun d => if d = "/base" then ["old"] else []⟩
        none (fun _ => [])
      = Except.ok ⟨none, [], some ["/base/old"], []⟩ ∧
    Runner.postExecuteExpectedFiles
        ⟨⟨some "/base", [], none, true⟩, []⟩
        ⟨none, [], some ["/base/old"], []⟩
        ⟨[], ["old"], fun d => if d = "/base" then ["old"] else []⟩
      = ⟨[], some ["old"]⟩ := by
  constructor
  · rfl
  · rfl

/-- Claim C4: the configuration `[Tests] [a] type=T x=1 x=2` contains a
duplicate parameter path `Tests/a/x`; `Parser.checkDuplicates` yields
exactly that diagnostic, but `Parser.parse` — whose call to the duplicate
check is commented out — emits no diagnostic at all for this input. -/
theorem Parser_parse_misses_duplicates :
    checkDuplicates
        (HitNode.mk "" []
          [HitNode.mk "Tests" []
            [HitNode.mk "a"
              [("type", PyVal.vstr ['T']), ("x", PyVal.vstr ['1']),
               ("x", PyVal.vstr ['2'])] []]])
      = [DupDiag.dupParam "Tests/a/x"] ∧
    (Parser.parse
        ⟨fun t => t = "T", fun _ k => k = "x", fun _ => true⟩
        (HitNode.mk "" []
          [HitNode.mk "Tests" []
            [HitNode.mk "a"
              [("type", PyVal.vstr ['T']), ("x", PyVal.vstr ['1']),
               ("x", PyVal.vstr ['2'])] []]])).1
      = [] := by
  constructor
  · rfl
  · rfl

/-- Claim C5: the quoted assignment `x = "x y"` never has its quotes
stripped by the parser.  First and second conjuncts: the live path,
`_parseNode`, passes the raw value — quotes included — straight to
`params.set`, which differs from the stripped content the claim requires.
Third conjunct: the quote-stripping implementation, `extractParams`, called
on a real `Parser` (whose `params_parsed` attribute was never initialized)
raises `AttributeError` at its first parameter, before any stripping. -/
theorem Parser_quote_strip_unreachable :
    parseNodeSetCalls
        (HitNode.mk "a"
          [("type", PyVal.vstr ['T']),
           ("x", PyVal.vstr ['"', 'x', ' ', 'y', '"'])] [])
      = [("x", PyVal.vstr ['"', 'x', ' ', 'y', '"'])] ∧
    PyVal.vstr ['"', 'x', ' ', 'y', '"'] ≠ PyVal.vstr ['x', ' ', 'y'] ∧
    extractParams (fun _ => none) "Tests/a"
        ⟨["x"], fun _ => false, fun _ => none, [], fun _ => none⟩
        [("x", PyVal.vstr ['"', 'x', ' ', 'y', '"'])]
        Parser.initParamsParsed
      = Except.error PyErr.attributeError := by
  refine ⟨rfl, by decide, rfl⟩

/-- Claim C6: for a leaf block with an unrecognized parameter `y`, the live
`_parseNode` emits the does-not-exist diagnostic but still calls
`params.set('y', value)` (there is no skip), contradicting "the parameter
is not assigned"; and `extractParams`, the function implementing the
claimed recognize/assign/unused-parameter rule, raises `AttributeError` at
its first parameter when called on a real `Parser`, whose `params_parsed`
attribute the constructor never initializes. -/
theorem Parser_unused_param_still_set :
    (parseNode
        ⟨fun t => t = "T", fun _ k => k = "x", fun _ => true⟩
        "Tests/a"
        (HitNode.mk "a"
          [("type", PyVal.vstr ['T']), ("y", PyVal.vstr ['1'])] [])).1
      = [ParseDiag.unknownParam "y"] ∧
    parseNodeSetCalls
        (HitNode.mk "a"
          [("type", PyVal.vstr ['T']), ("y", PyVal.vstr ['1'])] [])
      = [("y", PyVal.vstr ['1'])] ∧
    extractParams (fun _ => none) "Tests/a"
        ⟨["x"], fun _ => false, fun _ => none, [], fun _ => none⟩
        [("y", PyVal.vstr ['1'])]
        Parser.initParamsParsed
      = Except.error PyErr.attributeError := by
  refine ⟨rfl, rfl, rfl⟩

end Moosetools
